import Mathlib

/-!
# E92-Pulse: verification of the diagnostic protocol stack

Shallow embedding of the UDS client / safety-policy engine / module scanner
of the E92-Pulse repository (Python), together with proofs of the spec's
claims about them.

Conventions of the embedding:
* Python `bytes` become `List Nat` (each element a byte value).
* Python mutable objects become explicit state records threaded through
  the functions; every function returns its updated state.
* Python exceptions become `Except` values; a `try/except` block becomes a
  `match` on the `Except`.
* Wall-clock timestamps (`datetime.now()`) carry no information relevant to
  any claim and are omitted from the records.
-/

namespace E92Pulse

/-! ## Small helpers: Python string formatting -/

/-- Uppercase hexadecimal digit, `0`-`9` then `A`-`F`. -/
def hex_digit (n : Nat) : Char :=
  if n < 10 then Char.ofNat (48 + n) else Char.ofNat (55 + n)

/-- Lowercase hexadecimal digit, `0`-`9` then `a`-`f`. -/
def hex_digit_lower (n : Nat) : Char :=
  if n < 10 then Char.ofNat (48 + n) else Char.ofNat (87 + n)

/-- Python `f"{n:02X}"` for byte values `n ≤ 0xFF` (all uses in the code
format byte-sized service ids / sub-functions / codes). -/
def hex_byte (n : Nat) : String :=
  String.mk [hex_digit (n / 16 % 16), hex_digit (n % 16)]

/-- Python `f"{n:04X}"` for 16-bit values `n ≤ 0xFFFF` (data identifiers,
routine ids). -/
def hex_word (n : Nat) : String :=
  hex_byte (n / 256) ++ hex_byte (n % 256)

/-- Python `bytes.hex()`: lowercase hex, two digits per byte. -/
def bytes_hex (bs : List Nat) : String :=
  String.mk (bs.foldr
    (fun b acc => hex_digit_lower (b / 16 % 16) :: hex_digit_lower (b % 16) :: acc) [])

/-- Python `str.replace("_", " ")` for a single-character pattern is a
character-wise map. -/
def underscore_to_space (s : String) : String :=
  String.mk (s.data.map (fun c => if c = '_' then ' ' else c))

/-- Python `str.title()` on ASCII text: the first letter of every maximal
letter group is uppercased, the following letters lowercased. -/
def title_chars : Bool → List Char → List Char
  | _, [] => []
  | prev, c :: cs =>
    if c.isAlpha then
      (if prev then c.toLower else c.toUpper) :: title_chars true cs
    else
      c :: title_chars false cs

/-- Python `str.title()` (ASCII input). -/
def python_title (s : String) : String :=
  String.mk (title_chars false s.data)

/-- Python whitespace characters recognised by `str.strip()`. -/
def is_py_space (c : Char) : Bool :=
  c = ' ' || c = '\t' || c = '\n' || c = '\x0d' || c = '\x0b' || c = '\x0c'

/-- Python `str.strip()`: drop whitespace from both ends. -/
def py_strip (cs : List Char) : List Char :=
  ((cs.dropWhile is_py_space).reverse.dropWhile is_py_space).reverse

/-- Python `bytes.decode("ascii", errors="ignore")`: non-ASCII bytes are
dropped, the rest become their ASCII characters. -/
def decode_ascii_ignore (bs : List Nat) : List Char :=
  (bs.filter (fun b => b < 128)).map Char.ofNat

/-- Python `int.to_bytes(2, "big")` for a 16-bit value. -/
def to_bytes_2 (n : Nat) : List Nat :=
  [n / 256 % 256, n % 256]

/-- Python `str(opt)` where `opt` is `None` or a string (used in an f-string). -/
def option_str : Option String → String
  | none => "None"
  | some s => s

/-! ## Safety engine (`e92_pulse/core/safety.py`) -/

/-- `SafetyCategory` enum from `core/safety.py`. -/
inductive SafetyCategory
  | IMMOBILIZER
  | SECURITY_BYPASS
  | VIN_TAMPERING
  | ODOMETER
  | ECU_FLASH
  | THEFT_ADJACENT
deriving DecidableEq, Repr

/-- `SafetyViolation` dataclass (timestamp omitted, see file header). -/
structure SafetyViolation where
  category : SafetyCategory
  operation : String
  details : String
  blocked : Bool
deriving DecidableEq, Repr

/-- A registered violation hook (`Callable[[SafetyViolation], None]`).
For the embedding the only behaviour of a hook that matters is whether the
call returns normally or raises; `id` identifies the hook in the call
trace. -/
structure Hook where
  id : Nat
  raises : Bool
deriving DecidableEq, Repr

/-- Mutable state of a `SafetyManager` instance: the append-only violation
log and the list of registered hooks. -/
structure SafetyManager where
  violations : List SafetyViolation
  hooks : List Hook
deriving DecidableEq, Repr

/-- `SafetyManager.BLOCKED_SERVICES` (compiled-in frozenset). -/
def BLOCKED_SERVICES : List Nat :=
  [0x27, 0x2E, 0x34, 0x35, 0x36, 0x37, 0x38]

/-- `SafetyManager.BLOCKED_WRITE_DIDS` (compiled-in frozenset). -/
def BLOCKED_WRITE_DIDS : List Nat :=
  [0xF190, 0xF191, 0x2500, 0x2501, 0x2502]

/-- `SafetyManager.BLOCKED_ROUTINES` (compiled-in frozenset). -/
def BLOCKED_ROUTINES : List Nat :=
  [0x0100, 0x0101, 0x0102, 0x0103, 0x0200, 0x0201, 0x0202, 0xFF00, 0xFF01, 0xFF02]

/-- One hook invocation in the `_record_violation` notification loop, with
whether the hook raised. -/
structure HookCall where
  hook_id : Nat
  raised : Bool
deriving DecidableEq, Repr

/-- Invoking one hook: returns normally or raises an exception. -/
def invoke_hook (h : Hook) (_violation : SafetyViolation) : Except String Unit :=
  if h.raises then Except.error "hook exception" else Except.ok ()

/-- The `for hook in self._hooks` loop of `_record_violation`: each call is
wrapped in `try/except Exception`, so a raising hook is logged and the loop
continues with the next hook. -/
def notify_hooks (hooks : List Hook) (violation : SafetyViolation) : List HookCall :=
  match hooks with
  | [] => []
  | h :: t =>
    match invoke_hook h violation with
    | Except.ok _ => { hook_id := h.id, raised := false } :: notify_hooks t violation
    | Except.error _ => { hook_id := h.id, raised := true } :: notify_hooks t violation

/-- Result of `_record_violation`: updated manager plus the hook calls made. -/
structure RecordOutcome where
  mgr : SafetyManager
  hook_calls : List HookCall
deriving Repr

/-- `SafetyManager._record_violation`: the violation is appended to the log
first; hooks are notified afterwards (each guarded by `try/except`). -/
def record_violation (mgr : SafetyManager) (category : SafetyCategory)
    (operation details : String) : RecordOutcome :=
  let violation : SafetyViolation :=
    { category := category, operation := operation, details := details, blocked := true }
  { mgr := { mgr with violations := mgr.violations ++ [violation] },
    hook_calls := notify_hooks mgr.hooks violation }

/-- `SafetyManager._categorize_service`. -/
def categorize_service (service_id : Nat) : SafetyCategory :=
  if service_id = 0x27 then SafetyCategory.SECURITY_BYPASS
  else if service_id ∈ [0x34, 0x35, 0x36, 0x37, 0x38] then SafetyCategory.ECU_FLASH
  else SafetyCategory.THEFT_ADJACENT

/-- Result of a `check_*` call: the returned boolean plus updated state. -/
structure CheckOutcome where
  allowed : Bool
  mgr : SafetyManager
  hook_calls : List HookCall
deriving Repr

/-- The violation `check_service` records for a blocked service id. -/
def service_violation (service_id sub_function : Nat) : SafetyViolation :=
  { category := categorize_service service_id,
    operation := "UDS Service 0x" ++ hex_byte service_id,
    details := "Service 0x" ++ hex_byte service_id ++ " (sub: 0x" ++
      hex_byte sub_function ++ ") is blocked for safety",
    blocked := true }

/-- `SafetyManager.check_service`. -/
def check_service (mgr : SafetyManager) (service_id sub_function : Nat) : CheckOutcome :=
  if service_id ∈ BLOCKED_SERVICES then
    let v := service_violation service_id sub_function
    { allowed := false,
      mgr := { mgr with violations := mgr.violations ++ [v] },
      hook_calls := notify_hooks mgr.hooks v }
  else
    { allowed := true, mgr := mgr, hook_calls := [] }

/-- The violation `check_write_did` records for a protected identifier. -/
def write_did_violation (did : Nat) : SafetyViolation :=
  { category := if did = 0xF190 then SafetyCategory.VIN_TAMPERING else SafetyCategory.ODOMETER,
    operation := "Write DID 0x" ++ hex_word did,
    details := "Writing to DID 0x" ++ hex_word did ++ " is permanently blocked",
    blocked := true }

/-- `SafetyManager.check_write_did`. -/
def check_write_did (mgr : SafetyManager) (did : Nat) : CheckOutcome :=
  if did ∈ BLOCKED_WRITE_DIDS then
    let v := write_did_violation did
    { allowed := false,
      mgr := { mgr with violations := mgr.violations ++ [v] },
      hook_calls := notify_hooks mgr.hooks v }
  else
    { allowed := true, mgr := mgr, hook_calls := [] }

/-- `SafetyManager.get_blocked_message`. -/
def get_blocked_message (operation : String) : String :=
  "Operation '" ++ operation ++ "' is blocked for safety reasons.\n\n" ++
  "E92 Pulse explicitly prohibits:\n" ++
  "- Immobilizer/key programming\n" ++
  "- Security bypass mechanisms\n" ++
  "- VIN tampering\n" ++
  "- Odometer/mileage changes\n" ++
  "- ECU flashing that can brick modules\n\n" ++
  "These restrictions protect you and your vehicle."

/-! ## UDS client (`e92_pulse/protocols/uds_client.py`) -/

/-- `UDSError` dataclass (a Python exception). -/
structure UDSError where
  message : String
  code : Nat
  service_id : Nat
  raw_response : Option (List Nat)
deriving DecidableEq, Repr

/-- `UDSError.__str__`. -/
def UDSError.toStr (e : UDSError) : String :=
  "UDSError[0x" ++ hex_byte e.code ++ "]: " ++ e.message

/-- `UDSResponse` dataclass (timestamp omitted). -/
structure UDSResponse where
  service_id : Nat
  data : List Nat
  positive : Bool
  error_code : Option Nat
  error_message : Option String
  raw_request : Option (List Nat)
  raw_response : Option (List Nat)
deriving DecidableEq, Repr

/-- `TraceEntry` dataclass (timestamp omitted). -/
structure TraceEntry where
  direction : String
  service_id : Nat
  data : List Nat
  description : String
deriving DecidableEq, Repr

/-- The transport object as the client sees it, after `set_target` has
configured it for one diagnostic address: `send` succeeds or fails, and
`receive` is the (deterministic) response of the bus to the last request,
`none` on timeout. -/
structure Transport where
  send_ok : List Nat → Bool
  receive : List Nat → Option (List Nat)

/-- Name table of the `UDSNegativeResponse` IntEnum: `code ↦ member name`. -/
def uds_negative_response_name (code : Nat) : Option String :=
  if code = 0x10 then some "GENERAL_REJECT"
  else if code = 0x11 then some "SERVICE_NOT_SUPPORTED"
  else if code = 0x12 then some "SUB_FUNCTION_NOT_SUPPORTED"
  else if code = 0x13 then some "INCORRECT_MESSAGE_LENGTH"
  else if code = 0x14 then some "RESPONSE_TOO_LONG"
  else if code = 0x21 then some "BUSY_REPEAT_REQUEST"
  else if code = 0x22 then some "CONDITIONS_NOT_CORRECT"
  else if code = 0x24 then some "REQUEST_SEQUENCE_ERROR"
  else if code = 0x25 then some "NO_RESPONSE_FROM_SUBNET"
  else if code = 0x26 then some "FAILURE_PREVENTS_EXEC"
  else if code = 0x31 then some "REQUEST_OUT_OF_RANGE"
  else if code = 0x33 then some "SECURITY_ACCESS_DENIED"
  else if code = 0x35 then some "INVALID_KEY"
  else if code = 0x36 then some "EXCEEDED_ATTEMPTS"
  else if code = 0x37 then some "REQUIRED_TIME_DELAY"
  else if code = 0x70 then some "UPLOAD_DOWNLOAD_NOT_ACCEPTED"
  else if code = 0x71 then some "TRANSFER_DATA_SUSPENDED"
  else if code = 0x72 then some "GENERAL_PROGRAMMING_FAILURE"
  else if code = 0x73 then some "WRONG_BLOCK_SEQUENCE"
  else if code = 0x7F then some "SERVICE_NOT_SUPPORTED_IN_SESSION"
  else none

/-- `UDSClient._get_error_message`:
`UDSNegativeResponse(code).name.replace("_", " ").title()`, and the
`ValueError` fallback for codes outside the enum. -/
def get_error_message (code : Nat) : String :=
  match uds_negative_response_name code with
  | some n => python_title (underscore_to_space n)
  | none => "Unknown Error (0x" ++ hex_byte code ++ ")"

/-- `UDSClient._parse_response`. Returns the parsed response and the RX
trace entry the method appends, or the `UDSError` it raises on an empty
response. -/
def parse_response (request_service_id : Nat) (request response : List Nat) :
    Except UDSError (UDSResponse × TraceEntry) :=
  match response with
  | [] =>
    Except.error
      { message := "Empty response", code := 0xFC,
        service_id := request_service_id, raw_response := some [] }
  | response_sid :: rest =>
    if response_sid = request_service_id + 0x40 then
      Except.ok
        ({ service_id := request_service_id, data := rest, positive := true,
           error_code := none, error_message := none,
           raw_request := some request, raw_response := some response },
         { direction := "RX", service_id := response_sid, data := response,
           description := "Positive: " ++ bytes_hex response })
    else
      match rest with
      | error_sid :: error_code :: tail =>
        if response_sid = 0x7F then
          let error_msg := get_error_message error_code
          Except.ok
            ({ service_id := error_sid, data := tail, positive := false,
               error_code := some error_code, error_message := some error_msg,
               raw_request := some request, raw_response := some response },
             { direction := "RX", service_id := response_sid, data := response,
               description := "Negative: " ++ error_msg ++ " (0x" ++
                 hex_byte error_code ++ ")" })
        else
          Except.ok
            ({ service_id := response_sid, data := rest, positive := false,
               error_code := some 0xFB, error_message := some "Unexpected response format",
               raw_request := some request, raw_response := some response },
             { direction := "RX", service_id := response_sid, data := response,
               description := "Unknown: " ++ bytes_hex response })
      | _ =>
        Except.ok
          ({ service_id := response_sid, data := rest, positive := false,
             error_code := some 0xFB, error_message := some "Unexpected response format",
             raw_request := some request, raw_response := some response },
           { direction := "RX", service_id := response_sid, data := response,
             description := "Unknown: " ++ bytes_hex response })

/-- Everything one `send_request` call produces: the return value or raised
`UDSError`, the requests handed to `transport.send`, the safety manager
afterwards, the safety-hook calls made, and the trace entries appended. -/
structure SendOutcome where
  result : Except UDSError UDSResponse
  transmitted : List (List Nat)
  safety : SafetyManager
  hook_calls : List HookCall
  trace : List TraceEntry
deriving Repr

/-- The body of `send_request` after the safety gate: build the request,
trace TX, hand it to the transport, receive, parse. -/
def send_transmit (safety : SafetyManager) (transport : Transport)
    (service_id : Nat) (data : List Nat) (gate_calls : List HookCall) : SendOutcome :=
  let request := service_id :: data
  let tx : TraceEntry :=
    { direction := "TX", service_id := service_id, data := request,
      description := "Request: " ++ bytes_hex request }
  if transport.send_ok request then
    match transport.receive request with
    | none =>
      { result := Except.error
          { message := "No response (timeout)", code := 0xFD,
            service_id := service_id, raw_response := none },
        transmitted := [request], safety := safety,
        hook_calls := gate_calls, trace := [tx] }
    | some response_data =>
      match parse_response service_id request response_data with
      | Except.error e =>
        { result := Except.error e, transmitted := [request], safety := safety,
          hook_calls := gate_calls, trace := [tx] }
      | Except.ok (resp, rx) =>
        { result := Except.ok resp, transmitted := [request], safety := safety,
          hook_calls := gate_calls, trace := [tx, rx] }
  else
    { result := Except.error
        { message := "Failed to send request", code := 0xFE,
          service_id := service_id, raw_response := none },
      transmitted := [request], safety := safety,
      hook_calls := gate_calls, trace := [tx] }

/-- `UDSClient.send_request(service_id, data, check_safety)`. -/
def send_request (safety : SafetyManager) (transport : Transport)
    (service_id : Nat) (data : List Nat) (check_safety : Bool) : SendOutcome :=
  if check_safety then
    let gate := check_service safety service_id 0
    if gate.allowed then
      send_transmit gate.mgr transport service_id data gate.hook_calls
    else
      { result := Except.error
          { message := get_blocked_message ("Service 0x" ++ hex_byte service_id),
            code := 0xFF, service_id := service_id, raw_response := none },
        transmitted := [], safety := gate.mgr,
        hook_calls := gate.hook_calls, trace := [] }
  else
    send_transmit safety transport service_id data []

/-- `UDSClient.read_data_by_id(*data_ids)`: concatenate the 16-bit
identifiers and send service `0x22`. -/
def read_data_by_id (safety : SafetyManager) (transport : Transport)
    (data_ids : List Nat) : SendOutcome :=
  send_request safety transport 0x22 (data_ids.foldr (fun d acc => to_bytes_2 d ++ acc) []) true

/-- `UDSClient.write_data_by_id(data_id, data)`: the operation-specific
`check_write_did` gate, then `send_request` for service `0x2E` (which runs
the generic `check_service` gate as well). -/
def write_data_by_id (safety : SafetyManager) (transport : Transport)
    (data_id : Nat) (data : List Nat) : SendOutcome :=
  let gate := check_write_did safety data_id
  if gate.allowed then
    send_request gate.mgr transport 0x2E (to_bytes_2 data_id ++ data) true
  else
    { result := Except.error
        { message := "DID 0x" ++ hex_word data_id ++ " is protected",
          code := 0xFF, service_id := 0x2E, raw_response := none },
      transmitted := [], safety := gate.mgr,
      hook_calls := gate.hook_calls, trace := [] }

/-- Dynamic attribute lookup on a `UDSResponse` object, restricted to
boolean-valued attributes: the dataclass defines `positive`; looking up a
name the class does not define raises `AttributeError`, modelled as
`none`. -/
def uds_response_getattr (r : UDSResponse) (attr : String) : Option Bool :=
  if attr = "positive" then some r.positive else none

/-- `UDSClient.read_vin`. The whole body is a `try/except Exception` whose
handler returns `None`. Inside the `try`, the code reads
`response.is_positive`; the dataclass defines no such attribute, so the
lookup raises `AttributeError` (here: the `getattr` model returns `none`)
and the handler returns `None`. -/
def read_vin (safety : SafetyManager) (transport : Transport) : Option String :=
  let outcome := read_data_by_id safety transport [0xF190]
  match outcome.result with
  | Except.error _ => none
  | Except.ok response =>
    match uds_response_getattr response "is_positive" with
    | none => none
    | some is_pos =>
      if is_pos && !response.data.isEmpty then
        let vin_data := if 2 < response.data.length then response.data.drop 2 else response.data
        let vin := String.mk (py_strip (decode_ascii_ignore vin_data))
        if 11 ≤ vin.length then some vin else none
      else none

/-- The VIN reader as the specification describes it (the amended reference
behaviour): on a positive `ReadDataByIdentifier 0xF190` response, decode the
payload after the 2-byte identifier echo as ASCII, strip it, and accept the
result when its length is at least 11. -/
def read_vin_spec (safety : SafetyManager) (transport : Transport) : Option String :=
  let outcome := read_data_by_id safety transport [0xF190]
  match outcome.result with
  | Except.error _ => none
  | Except.ok response =>
    if response.positive && !response.data.isEmpty then
      let vin_data := if 2 < response.data.length then response.data.drop 2 else response.data
      let vin := String.mk (py_strip (decode_ascii_ignore vin_data))
      if 11 ≤ vin.length then some vin else none
    else none

/-- Projection: the error code of a raised `UDSError`, `none` on success. -/
def result_code : Except UDSError UDSResponse → Option Nat
  | Except.error e => some e.code
  | Except.ok _ => none

/-- Projection: the parsed response of a successful `_parse_response`. -/
def parsed_ok : Except UDSError (UDSResponse × TraceEntry) → Option UDSResponse
  | Except.ok p => some p.1
  | Except.error _ => none

/-! ## ISO-TP segmentation layer (`IsoTpHandler`, `e92_pulse/app.py`)

`IsoTpHandler` (app.py) implements ISO-TP (ISO 15765-2) framing over raw
CAN: `send_receive` segments a request into a Single Frame, or a First
Frame plus Consecutive Frames after blocking on the peer's Flow Control;
`_receive_isotp` reassembles a response and transmits the Continue-To-Send
Flow Control after a First Frame. CAN frames are `List Nat` of byte
values. Bitwise operations on bytes are written arithmetically:
`x & 0x0F` is `x % 16`, `x & 0xF0` is `x / 16 % 16 * 16`, `x & 0xFF` is
`x % 256`, `0x10 | y` and `0x20 | y` with `y < 16` are `0x10 + y` and
`0x20 + y` (no common bits), and `(hi & 0x0F) << 8 | lo` with the byte
`lo < 256` is `hi % 16 * 256 + lo`. The bus is elided: the sender's
emitted data frames and the receiver's consumed frames are explicit
lists; `time.sleep` pacing and receive timeouts carry no data. -/

/-- The `while offset < len(data)` Consecutive-Frame loop of
`IsoTpHandler.send_receive`: each frame is `[0x20 | (seq & 0x0F)]` plus
`data[offset:offset+7]`, zero-padded to 8 bytes (`cf` has `1 + |slice|`
bytes before padding); `seq` advances as `(seq + 1) & 0x0F` and `offset`
by 7. The flow-control re-request taken when the peer's announced block
size is exhausted reads further Continue-To-Send frames, and `ST_min`
sleeps between frames; neither changes the emitted data frames, which are
a function of the payload alone. -/
def send_cf_frames (data : List Nat) (seq offset : Nat) : List (List Nat) :=
  if _h : offset < data.length then
    let slice := (data.drop offset).take 7
    ((0x20 + seq % 16) :: (slice ++ List.replicate (8 - (1 + slice.length)) 0)) ::
      send_cf_frames data ((seq + 1) % 16) (offset + 7)
  else []
termination_by data.length - offset
decreasing_by omega

/-- Transmit side of `IsoTpHandler.send_receive`, given the Flow Control
frame the peer answers the First Frame with: a payload of at most 7 bytes
is one Single Frame `[len] + data + [0]*(7-len)`; otherwise the First
Frame `[0x10 | ((len >> 8) & 0x0F), len & 0xFF] + data[:6]` is sent, and
if no Flow Control arrives or its top nibble is not `0x3` the transfer
aborts (`None`), else the Consecutive Frames follow. The peer's block
size and `ST_min` pace the transfer but do not alter the frames (see
`send_cf_frames`), so one Flow Control frame stands for the cooperative
peer's identical Continue-To-Send answers. -/
def isotp_send (data : List Nat) (fc : Option (List Nat)) : Option (List (List Nat)) :=
  if data.length ≤ 7 then
    some [(data.length :: data) ++ List.replicate (7 - data.length) 0]
  else
    match fc with
    | none => none
    | some f =>
      match f with
      | [] => none
      | b :: _ =>
        if b / 16 % 16 * 16 ≠ 0x30 then none
        else
          some (((0x10 + data.length / 256 % 16) :: (data.length % 256) :: data.take 6) ::
            send_cf_frames data 1 6)

/-- The Continue-To-Send Flow Control frame `_receive_isotp` transmits
after a First Frame: `[FC_CONTINUE, self.block_size, self.st_min, 0, ...]`
with the handler's default `block_size = 0`, `st_min = 0`. -/
def continue_fc : List Nat := [0x30, 0x00, 0x00, 0x00, 0x00, 0x00, 0x00, 0x00]

/-- The `while len(data) < length` Consecutive-Frame loop of
`IsoTpHandler._receive_isotp`. A missing or empty frame (`if not cf`), a
frame whose top nibble is not `0x2`, or a sequence mismatch breaks out of
the loop, after which the method returns the truncated `data[:length]` —
possibly shorter than `length`; a single-frame negative response
(`cf[0] == 0x03` and `cf[1] == 0x7F`) returns `cf[1:cf[0]+1] = cf[1:4]`
early; otherwise `cf[1:8]` is appended and the expected sequence advances
as `(expected_seq + 1) & 0x0F`. -/
def receive_cf_loop (length expected_seq : Nat) (data : List Nat)
    (frames : List (List Nat)) : List Nat :=
  if length ≤ data.length then data.take length
  else
    match frames with
    | [] => data.take length
    | cf :: rest =>
      match cf with
      | [] => data.take length
      | b :: _ =>
        if b / 16 % 16 * 16 ≠ 0x20 then
          if b / 16 % 16 * 16 = 0x00 ∧ b = 0x03 ∧ 1 < cf.length ∧ cf.getD 1 0 = 0x7F then
            (cf.drop 1).take 3
          else data.take length
        else if b % 16 ≠ expected_seq then data.take length
        else receive_cf_loop length ((expected_seq + 1) % 16) (data ++ (cf.drop 1).take 7) rest
termination_by frames.length
decreasing_by simp

/-- `IsoTpHandler._receive_isotp` on the frames received in order. No
frame at all, or an empty frame (falsy in Python), is `None`. A Single
Frame (`frame[0] & 0xF0 == 0x00`) returns `frame[1:1+length]` with the
length from the low nibble. A First Frame returns the Consecutive-Frame
loop's result on the 12-bit length `((frame[0] & 0x0F) << 8) | frame[1]`
and the seed `frame[2:8]` (the Continue-To-Send it transmits at this
point, `continue_fc`, travels to the peer); a First Frame of one byte
would raise `IndexError` at `frame[1]` out of the method — an aborted
reception, `none`. The remaining branches mirror the method's trailing
negative-response and fallback returns. -/
def receive_isotp (frames : List (List Nat)) : Option (List Nat) :=
  match frames with
  | [] => none
  | frame :: rest =>
    match frame with
    | [] => none
    | b :: _ =>
      if b / 16 % 16 * 16 = 0x00 then
        some ((frame.drop 1).take (b % 16))
      else if b / 16 % 16 * 16 = 0x10 then
        match frame.drop 1 with
        | [] => none
        | b1 :: _ =>
          some (receive_cf_loop (b % 16 * 256 + b1) 1 ((frame.drop 2).take 6) rest)
      else if b = 0x03 ∧ 1 < frame.length ∧ frame.getD 1 0 = 0x7F then
        some ((frame.drop 1).take 3)
      else if 0 < b then some (frame.drop 1) else none

/-! ## Module scanner (`e92_pulse/bmw/module_scan.py`) -/

/-- Modelled from the spec: the module `e92_pulse.protocols.services`
(enums `DiagnosticSession`, `DTCSubFunction`, `DTCStatusMask`) is not under
the repository's sources, only its importers are. The values follow the
spec's session vocabulary and ISO 14229, and agree with the requests the
in-repo mock ECUs and tests exchange (`0x10 0x01` default session,
`0x10 0x03` extended session, DTC sub-function `0x01`). -/
def DiagnosticSession_DEFAULT : Nat := 0x01

/-- Modelled from the spec: extended diagnostic session sub-function. -/
def DiagnosticSession_EXTENDED : Nat := 0x03

/-- Modelled from the spec: `DTCSubFunction.REPORT_NUMBER_OF_DTC_BY_STATUS_MASK`. -/
def DTCSubFunction_REPORT_NUMBER_OF_DTC_BY_STATUS_MASK : Nat := 0x01

/-- Modelled from the spec: `DTCStatusMask.CONFIRMED_DTC | DTCStatusMask.PENDING_DTC`
(ISO 14229 status bits `0x08 | 0x04`). -/
def DTC_SCAN_STATUS_MASK : Nat := 0x0C

/-- `ScanState` enum. -/
inductive ScanState
  | IDLE
  | SCANNING
  | COMPLETE
  | ABORTED
  | ERROR
deriving DecidableEq, Repr

/-- The fields of `ModuleDefinition` that `ModuleScanner` reads (the
registry-only fields — description, CAN ids, category, DTC-code marker,
priority, variants — are not consulted by the scanner and are omitted). -/
structure ModuleDefinition where
  module_id : String
  name : String
  address : Nat
  supports_extended_session : Bool
deriving DecidableEq, Repr

/-- `ModuleScanResult` dataclass (scan_time_ms omitted: wall clock). -/
structure ModuleScanResult where
  module_id : String
  name : String
  address : Nat
  responding : Bool
  has_faults : Bool
  fault_count : Nat
  variant : Option String
  software_version : Option String
  error_message : Option String
deriving DecidableEq, Repr

/-- `ScanResult` dataclass (start/end timestamps and the free-text `error`
field — never written by `scan_all` — omitted). -/
structure ScanResult where
  modules : List ModuleScanResult
  total_modules : Nat
  responding_modules : Nat
  modules_with_faults : Nat
  total_faults : Nat
  aborted : Bool
deriving DecidableEq, Repr

/-- Mutable scanner state: `_state` and `_abort_requested`. -/
structure ScannerState where
  state : ScanState
  abort_requested : Bool
deriving DecidableEq, Repr

/-- The bus environment a scan runs against: for each diagnostic address
(`uds.set_target(address)`), the transport configured for that address. -/
def ScanEnv := Nat → Transport

/-- Result of `_scan_module`: the per-module outcome and the safety manager
threaded through the probes. -/
structure ScanModuleOutcome where
  result : ModuleScanResult
  safety : SafetyManager
deriving Repr

/-- `ModuleScanner._scan_module`: set the target, probe the default
session (a non-positive reply or a raised `UDSError` records an error
message and leaves `responding` false); on success optionally probe the
extended session (failure swallowed), read the DTC count (trailing two
bytes of a well-formed positive payload, big endian; failure swallowed) and
the software version DID `0xF194` (failure swallowed). -/
def scan_module (safety : SafetyManager) (env : ScanEnv)
    (m : ModuleDefinition) : ScanModuleOutcome :=
  let tp := env m.address
  let base : ModuleScanResult :=
    { module_id := m.module_id, name := m.name, address := m.address,
      responding := false, has_faults := false, fault_count := 0,
      variant := none, software_version := none, error_message := none }
  let s1 := send_request safety tp 0x10 [DiagnosticSession_DEFAULT] true
  match s1.result with
  | Except.error e =>
    { result := { base with error_message := some e.toStr }, safety := s1.safety }
  | Except.ok resp =>
    if resp.positive = false then
      let msg := "Session control failed: " ++ option_str resp.error_message
      { result := { base with error_message := some msg }, safety := s1.safety }
    else
      let r1 := { base with responding := true }
      let safety2 :=
        if m.supports_extended_session then
          (send_request s1.safety tp 0x10 [DiagnosticSession_EXTENDED] true).safety
        else s1.safety
      let d := send_request safety2 tp 0x19
        [DTCSubFunction_REPORT_NUMBER_OF_DTC_BY_STATUS_MASK, DTC_SCAN_STATUS_MASK] true
      let r2 :=
        match d.result with
        | Except.ok dresp =>
          if dresp.positive ∧ 4 ≤ dresp.data.length then
            let cnt := (dresp.data.drop 2).headI * 256 + ((dresp.data.drop 2).drop 1).headI
            { r1 with fault_count := cnt, has_faults := decide (0 < cnt) }
          else r1
        | Except.error _ => r1
      let v := send_request d.safety tp 0x22 (to_bytes_2 0xF194) true
      match v.result with
      | Except.ok vresp =>
        if vresp.positive ∧ vresp.data ≠ [] then
          let ver := String.mk (py_strip (decode_ascii_ignore (vresp.data.take 20)))
          { result := { r2 with software_version := some ver }, safety := v.safety }
        else
          { result := r2, safety := v.safety }
      | Except.error _ =>
        { result := r2, safety := v.safety }

/-- What one `scan_all` call produces: the aggregate result, the scanner
state afterwards, the threaded safety manager, and the progress-callback
events `(index, total, name)` fired. -/
structure ScanAllOutcome where
  result : ScanResult
  scanner : ScannerState
  safety : SafetyManager
  progress_events : List (Nat × Nat × String)
deriving Repr

/-- The `for i, module_def in enumerate(modules_to_scan)` loop of
`scan_all`: the abort flag is checked once per module-iteration boundary;
otherwise a progress event fires, the module is scanned and the counters
are updated (`responding_modules`, nested `modules_with_faults` /
`total_faults`). -/
def scan_loop (env : ScanEnv) (total : Nat) :
    List ModuleDefinition → Nat → Bool → SafetyManager → ScanResult →
    List (Nat × Nat × String) → ScanResult × SafetyManager × List (Nat × Nat × String)
  | [], _, _, safety, acc, events => (acc, safety, events)
  | m :: rest, idx, abort_requested, safety, acc, events =>
    if abort_requested then ({ acc with aborted := true }, safety, events)
    else
      let events2 := events ++ [(idx, total, m.name)]
      let o := scan_module safety env m
      let acc2 : ScanResult :=
        { acc with
          modules := acc.modules ++ [o.result],
          responding_modules :=
            acc.responding_modules + (if o.result.responding then 1 else 0),
          modules_with_faults :=
            acc.modules_with_faults +
              (if o.result.responding && o.result.has_faults then 1 else 0),
          total_faults :=
            acc.total_faults +
              (if o.result.responding && o.result.has_faults then o.result.fault_count else 0) }
      scan_loop env total rest (idx + 1) abort_requested o.safety acc2 events2

/-- `ModuleScanner.scan_all(modules)`. The prior scanner state is
overwritten (`_state = SCANNING`, `_abort_requested = False`) without ever
being consulted; the loop runs over the requested modules and the final
state is `ABORTED` or `COMPLETE`. The vehicle-profile mirror updates and
the completion callback carry no information beyond the returned
`ScanResult` and are not modelled separately. The cooperative abort flag
can only be raised concurrently by `abort()`; in this sequential embedding
it therefore stays `false` after the reset at the top of `scan_all`. -/
def scan_all (_scanner : ScannerState) (safety : SafetyManager) (env : ScanEnv)
    (modules : List ModuleDefinition) : ScanAllOutcome :=
  let reset : ScannerState := { state := ScanState.SCANNING, abort_requested := false }
  let total := modules.length
  let init : ScanResult :=
    { modules := [], total_modules := total, responding_modules := 0,
      modules_with_faults := 0, total_faults := 0, aborted := false }
  let out := scan_loop env total modules 0 reset.abort_requested safety init []
  { result := out.1,
    scanner :=
      { state := if out.1.aborted then ScanState.ABORTED else ScanState.COMPLETE,
        abort_requested := reset.abort_requested },
    safety := out.2.1,
    progress_events := out.2.2 }

/-! ## Concrete fixtures used by witnesses and counterexamples -/

/-- A freshly constructed `SafetyManager()`: empty log, no hooks. -/
def fresh_manager : SafetyManager := { violations := [], hooks := [] }

/-- A manager with two registered hooks, the first of which raises. -/
def hooked_manager : SafetyManager :=
  { violations := [], hooks := [{ id := 1, raises := true }, { id := 2, raises := false }] }

/-- A transport whose target never answers (send succeeds, receive times
out). -/
def null_transport : Transport :=
  { send_ok := fun _ => true, receive := fun _ => none }

/-- A transport whose target answers the VIN read `22 F1 90` with a
positive response carrying the identifier echo and a 17-character ASCII
VIN. -/
def vin_transport : Transport :=
  { send_ok := fun _ => true,
    receive := fun req =>
      if req = [0x22, 0xF1, 0x90] then
        some ([0x62, 0xF1, 0x90] ++ "WBSWD93537P123456".data.map Char.toNat)
      else none }

/-- A transport whose target accepts the default-session request
`10 01` positively and ignores everything else. -/
def responsive_transport : Transport :=
  { send_ok := fun _ => true,
    receive := fun req => if req = [0x10, 0x01] then some [0x50, 0x01] else none }

/-- The blocked-service set exactly as the claim (and spec §4.3) enumerates
it: Security Access, Request Download, Request Upload, Transfer Data,
Request Transfer Exit, Request File Transfer — and nothing else. Written
from the claim's words, for comparison with the code's
`BLOCKED_SERVICES`. -/
def spec_blocked_services : List Nat := [0x27, 0x34, 0x35, 0x36, 0x37, 0x38]

/-- A scanner whose state says a scan is currently running. -/
def scanning_state : ScannerState :=
  { state := ScanState.SCANNING, abort_requested := false }

/-- A bus on which no module answers. -/
def dead_env : ScanEnv := fun _ => null_transport

/-- A single module definition for the concurrent-scan counterexample. -/
def sample_module : ModuleDefinition :=
  { module_id := "DME", name := "Digital Motor Electronics", address := 0x12,
    supports_extended_session := true }

/-- A bus where the modules at `0x12` and `0x56` answer session control and
nothing else does. -/
def c9_env : ScanEnv :=
  fun a => if a = 0x12 ∨ a = 0x56 then responsive_transport else null_transport

/-- First scanned module (responds). -/
def c9_m1 : ModuleDefinition :=
  { module_id := "DME", name := "Engine", address := 0x12, supports_extended_session := true }

/-- Second scanned module (never responds). -/
def c9_m2 : ModuleDefinition :=
  { module_id := "EGS", name := "Transmission", address := 0x18,
    supports_extended_session := false }

/-- Third scanned module (responds). -/
def c9_m3 : ModuleDefinition :=
  { module_id := "DSC", name := "Stability", address := 0x56, supports_extended_session := true }

/-! ## Helper lemmas -/

/-- `check_service` on an id outside `BLOCKED_SERVICES` allows and leaves
the manager untouched. -/
theorem check_service_not_blocked (mgr : SafetyManager) (sid sub : Nat)
    (h : sid ∉ BLOCKED_SERVICES) :
    check_service mgr sid sub = { allowed := true, mgr := mgr, hook_calls := [] } := by
  simp [check_service, h]

/-- `check_service` on a blocked id denies, appends exactly the service
violation and notifies every hook. -/
theorem check_service_blocked (mgr : SafetyManager) (sid sub : Nat)
    (h : sid ∈ BLOCKED_SERVICES) :
    check_service mgr sid sub =
      { allowed := false,
        mgr := { mgr with violations := mgr.violations ++ [service_violation sid sub] },
        hook_calls := notify_hooks mgr.hooks (service_violation sid sub) } := by
  simp [check_service, h]

/-- The post-gate transmission path never touches the safety manager. -/
theorem send_transmit_safety (mgr : SafetyManager) (tp : Transport)
    (sid : Nat) (data : List Nat) (gc : List HookCall) :
    (send_transmit mgr tp sid data gc).safety = mgr := by
  unfold send_transmit
  dsimp only
  split
  · split
    · rfl
    · split
      · rfl
      · rfl
  · rfl

/-- `send_request` with the gate active on a blocked id: a policy
`UDSError` (code `0xFF`), nothing given to the transport, exactly one
violation appended, no trace entries. -/
theorem send_request_blocked (mgr : SafetyManager) (tp : Transport)
    (sid : Nat) (data : List Nat) (h : sid ∈ BLOCKED_SERVICES) :
    send_request mgr tp sid data true =
      { result := Except.error
          { message := get_blocked_message ("Service 0x" ++ hex_byte sid),
            code := 0xFF, service_id := sid, raw_response := none },
        transmitted := [],
        safety := { mgr with violations := mgr.violations ++ [service_violation sid 0] },
        hook_calls := notify_hooks mgr.hooks (service_violation sid 0),
        trace := [] } := by
  unfold send_request
  rw [check_service_blocked mgr sid 0 h]
  rfl

/-- `send_request` with the gate active on an allowed id proceeds to the
transmission path with the manager unchanged. -/
theorem send_request_allowed (mgr : SafetyManager) (tp : Transport)
    (sid : Nat) (data : List Nat) (h : sid ∉ BLOCKED_SERVICES) :
    send_request mgr tp sid data true = send_transmit mgr tp sid data [] := by
  unfold send_request
  rw [check_service_not_blocked mgr sid 0 h]
  rfl

/-- The notification loop reaches every registered hook, in order. -/
theorem notify_hooks_all (hooks : List Hook) (v : SafetyViolation) :
    (notify_hooks hooks v).map HookCall.hook_id = hooks.map Hook.id := by
  induction hooks with
  | nil => rfl
  | cons h t ih =>
    unfold notify_hooks invoke_hook
    split <;> simp_all

/-- Every registered hook's invocation appears in the call trace, with its
raising behaviour. -/
theorem notify_hooks_mem (hooks : List Hook) (v : SafetyViolation) (h : Hook)
    (hmem : h ∈ hooks) :
    ({ hook_id := h.id, raised := h.raises } : HookCall) ∈ notify_hooks hooks v := by
  induction hooks with
  | nil => simp at hmem
  | cons h0 t ih =>
    unfold notify_hooks invoke_hook
    rcases List.mem_cons.mp hmem with heq | htail
    · subst heq
      cases hr : h.raises <;> simp [hr]
    · split <;> simp [ih htail]

/-- Unfolding equation of `send_cf_frames` while payload remains. -/
theorem send_cf_frames_cons (data : List Nat) (seq offset : Nat) (h : offset < data.length) :
    send_cf_frames data seq offset =
      ((0x20 + seq % 16) :: ((data.drop offset).take 7 ++
        List.replicate (8 - (1 + ((data.drop offset).take 7).length)) 0)) ::
      send_cf_frames data ((seq + 1) % 16) (offset + 7) := by
  conv_lhs => rw [send_cf_frames]
  simp [h]

/-- The receiver's Consecutive-Frame loop inverts the sender's: starting
from the First-Frame seed `data[:offset]` with matching sequence counters
(`s < 16`, as both sides keep them reduced mod 16), it recovers the whole
payload, the final frame's zero padding being cut by the `data[:length]`
truncation. -/
theorem receive_cf_loop_round (payload : List Nat) :
    ∀ (k offset s : Nat), payload.length - offset = k → offset < payload.length → s < 16 →
      receive_cf_loop payload.length s (payload.take offset) (send_cf_frames payload s offset)
        = payload := by
  intro k
  induction k using Nat.strong_induction_on with
  | _ k ih =>
    intro offset s hk hoff hs
    rw [send_cf_frames_cons payload s offset hoff]
    rw [receive_cf_loop.eq_def]
    have hnd : ¬(payload.length ≤ (payload.take offset).length) := by
      simp [List.length_take]
      omega
    rw [if_neg hnd]
    dsimp only
    rw [if_neg (by omega : ¬((0x20 + s % 16) / 16 % 16 * 16 ≠ 0x20))]
    rw [if_neg (by omega : ¬((0x20 + s % 16) % 16 ≠ s))]
    simp only [List.drop_succ_cons, List.drop_zero]
    have hslice7 : (((payload.drop offset).take 7 ++
        List.replicate (8 - (1 + ((payload.drop offset).take 7).length)) 0).take 7) =
        (payload.drop offset).take 7 ++
          List.replicate (8 - (1 + ((payload.drop offset).take 7).length)) 0 := by
      apply List.take_of_length_le
      simp [List.length_take, List.length_drop]
      omega
    rw [hslice7]
    by_cases hr : payload.length - offset ≤ 7
    · have hslice : (payload.drop offset).take 7 = payload.drop offset := by
        apply List.take_of_length_le
        simp [List.length_drop]
        omega
      rw [hslice]
      rw [receive_cf_loop.eq_def]
      have hfits : payload.length ≤ (payload.take offset ++ (payload.drop offset ++
          List.replicate (8 - (1 + (payload.drop offset).length)) 0)).length := by
        simp [List.length_drop, List.length_take]
        omega
      rw [if_pos hfits]
      rw [← List.append_assoc, List.take_append_drop,
        List.take_append_of_le_length (Nat.le_refl _), List.take_length]
    · have hslicelen : ((payload.drop offset).take 7).length = 7 := by
        simp [List.length_take, List.length_drop]
        omega
      rw [hslicelen]
      norm_num
      rw [← List.take_add]
      exact ih (payload.length - (offset + 7)) (by omega) (offset + 7)
        ((s + 1) % 16) rfl (by omega) (Nat.mod_lt _ (by norm_num))

/-- `_scan_module` against a target that answers the default-session probe
positively (and nothing else): the module is responding, no faults, no
error message, and the safety manager is untouched. -/
theorem scan_module_session_ok (safety : SafetyManager) (env : ScanEnv)
    (m : ModuleDefinition) (h : env m.address = responsive_transport) :
    scan_module safety env m =
      { result :=
          { module_id := m.module_id, name := m.name, address := m.address,
            responding := true, has_faults := false, fault_count := 0,
            variant := none, software_version := none, error_message := none },
        safety := safety } := by
  cases hext : m.supports_extended_session <;>
    simp [scan_module, h, send_request, check_service, BLOCKED_SERVICES, send_transmit,
      parse_response, responsive_transport, DiagnosticSession_DEFAULT,
      DiagnosticSession_EXTENDED, DTCSubFunction_REPORT_NUMBER_OF_DTC_BY_STATUS_MASK,
      DTC_SCAN_STATUS_MASK, to_bytes_2, hext]

/-- `_scan_module` against a target that never answers: not responding,
with the timeout `UDSError` recorded as the error message, manager
untouched. -/
theorem scan_module_no_response (safety : SafetyManager) (env : ScanEnv)
    (m : ModuleDefinition) (h : env m.address = null_transport) :
    scan_module safety env m =
      { result :=
          { module_id := m.module_id, name := m.name, address := m.address,
            responding := false, has_faults := false, fault_count := 0,
            variant := none, software_version := none,
            error_message := some "UDSError[0xFD]: No response (timeout)" },
        safety := safety } := by
  simp [scan_module, h, send_request, check_service, BLOCKED_SERVICES, send_transmit,
    parse_response, null_transport, DiagnosticSession_DEFAULT, UDSError.toStr]
  decide

/-- With the abort flag down (its state after the reset at the top of
`scan_all`, and it can only change concurrently), the loop scans every
module and never sets `aborted`. -/
theorem scan_loop_no_abort (env : ScanEnv) (total : Nat) :
    ∀ (ms : List ModuleDefinition) (idx : Nat) (safety : SafetyManager)
      (acc : ScanResult) (events : List (Nat × Nat × String)),
      (scan_loop env total ms idx false safety acc events).1.modules.length
        = acc.modules.length + ms.length ∧
      (scan_loop env total ms idx false safety acc events).1.aborted = acc.aborted ∧
      (scan_loop env total ms idx false safety acc events).1.total_modules = acc.total_modules := by
  intro ms
  induction ms with
  | nil => intro idx safety acc events; simp [scan_loop]
  | cons m rest ih =>
    intro idx safety acc events
    simp only [scan_loop, Bool.false_eq_true, if_false]
    refine ⟨?_, ?_, ?_⟩
    · rw [(ih _ _ _ _).1]
      simp
      omega
    · rw [(ih _ _ _ _).2.1]
    · rw [(ih _ _ _ _).2.2]

/-! ## The claims -/

/-- Claim C1, counterexample: `send_request` called with
`check_safety = False` transmits the blocked service `0x27` without the
gate ever being consulted (no violation is recorded), so a call path of
`send_request` that transmits bytes without first passing `check_service`
does exist: the `check_safety` parameter is a runtime means to skip the
gate. -/
theorem C1_counterexample :
    0x27 ∈ BLOCKED_SERVICES ∧
    (send_request fresh_manager null_transport 0x27 [] false).transmitted = [[0x27]] ∧
    (send_request fresh_manager null_transport 0x27 [] false).safety.violations = [] := by
  decide

/-- Claim C1, amended: with `check_safety = True` (the default), a service
id the gate rejects is never transmitted — `send_request` fails with the
policy error `0xFF` and nothing reaches the transport, for every payload,
manager state, and transport. -/
theorem C1_gate_blocks_transmission (mgr : SafetyManager) (tp : Transport)
    (sid : Nat) (data : List Nat) (h : sid ∈ BLOCKED_SERVICES) :
    (send_request mgr tp sid data true).transmitted = [] ∧
    result_code (send_request mgr tp sid data true).result = some 0xFF := by
  rw [send_request_blocked mgr tp sid data h]
  exact ⟨rfl, rfl⟩

/-- Claim C1, witness: the amended theorem applied at the blocked service
`0x34` on a fresh manager. -/
theorem C1_witness :
    0x34 ∈ BLOCKED_SERVICES ∧
    (send_request fresh_manager null_transport 0x34 [] true).transmitted = [] := by
  refine ⟨by decide, ?_⟩
  exact (C1_gate_blocks_transmission fresh_manager null_transport 0x34 [] (by decide)).1

/-- Claim C2, counterexample: `0x2E` (WriteDataByIdentifier) lies outside
the claim's enumerated blocked set and outside every other fixed set, yet
`check_service` rejects it and appends a violation — the code's
`BLOCKED_SERVICES` contains a seventh element the claim omits. -/
theorem C2_counterexample :
    0x2E ∉ spec_blocked_services ∧
    0x2E ∉ BLOCKED_WRITE_DIDS ∧ 0x2E ∉ BLOCKED_ROUTINES ∧
    (check_service fresh_manager 0x2E 0).allowed = false ∧
    (check_service fresh_manager 0x2E 0).mgr.violations.length = 1 := by
  decide

/-- Claim C2, amended: for every service id in the code's fixed blocked set
`{0x27, 0x2E, 0x34, 0x35, 0x36, 0x37, 0x38}`, `check_service` returns
false and appends exactly one `SafetyViolation`; for every id outside that
set it returns true and appends none. -/
theorem C2_blocked_services_exact (mgr : SafetyManager) (sid : Nat) :
    (sid ∈ BLOCKED_SERVICES →
      (check_service mgr sid 0).allowed = false ∧
      (check_service mgr sid 0).mgr.violations = mgr.violations ++ [service_violation sid 0]) ∧
    (sid ∉ BLOCKED_SERVICES →
      (check_service mgr sid 0).allowed = true ∧
      (check_service mgr sid 0).mgr.violations = mgr.violations) := by
  constructor
  · intro h
    rw [check_service_blocked mgr sid 0 h]
    exact ⟨rfl, rfl⟩
  · intro h
    rw [check_service_not_blocked mgr sid 0 h]
    exact ⟨rfl, rfl⟩

/-- Claim C2, witness: the amended theorem at the blocked id `0x27` and
the allowed id `0x22`. -/
theorem C2_witness :
    (check_service fresh_manager 0x27 0).allowed = false ∧
    (check_service fresh_manager 0x22 0).allowed = true := by
  exact ⟨((C2_blocked_services_exact fresh_manager 0x27).1 (by decide)).1,
         ((C2_blocked_services_exact fresh_manager 0x22).2 (by decide)).1⟩

/-- Claim C3, evaluation at the failing input: for the identifier `0x1234`,
which is outside the protected set (the operation-specific
`check_write_did` passes), `write_data_by_id` still fails with the policy
error `0xFF` and transmits nothing, because service `0x2E` itself is in
`BLOCKED_SERVICES` and the generic gate inside `send_request` rejects it —
so no `WriteDataByIdentifier` request is ever transmitted. For a protected
identifier (`0xF190`) the call fails at `check_write_did` instead. -/
theorem C3_write_gate_evaluation :
    (check_write_did fresh_manager 0x1234).allowed = true ∧
    (write_data_by_id fresh_manager null_transport 0x1234 [0xAB]).transmitted = [] ∧
    result_code (write_data_by_id fresh_manager null_transport 0x1234 [0xAB]).result = some 0xFF ∧
    (write_data_by_id fresh_manager null_transport 0x1234 [0xAB]).safety.violations
      = [service_violation 0x2E 0] ∧
    (write_data_by_id fresh_manager null_transport 0xF190 [0xAB]).transmitted = [] ∧
    result_code (write_data_by_id fresh_manager null_transport 0xF190 [0xAB]).result = some 0xFF ∧
    (write_data_by_id fresh_manager null_transport 0xF190 [0xAB]).safety.violations
      = [write_did_violation 0xF190] := by
  decide

/-- Claim C4: rejection is atomic and exclusive. For every manager state,
transport, service id and payload: if the gate rejects the id,
`send_request` fails with the policy error before anything reaches the
transport and exactly the one violation of that check is appended; if the
gate accepts, no violation is recorded by the call. -/
theorem C4_rejection_atomic_exclusive (mgr : SafetyManager) (tp : Transport)
    (sid : Nat) (data : List Nat) :
    (sid ∈ BLOCKED_SERVICES →
      (send_request mgr tp sid data true).transmitted = [] ∧
      result_code (send_request mgr tp sid data true).result = some 0xFF ∧
      (send_request mgr tp sid data true).safety.violations
        = mgr.violations ++ [service_violation sid 0]) ∧
    (sid ∉ BLOCKED_SERVICES →
      (send_request mgr tp sid data true).safety.violations = mgr.violations) := by
  constructor
  · intro h
    rw [send_request_blocked mgr tp sid data h]
    exact ⟨rfl, rfl, rfl⟩
  · intro h
    rw [send_request_allowed mgr tp sid data h, send_transmit_safety]

/-- Claim C4, witness: the theorem at the blocked service `0x36` (one
violation, nothing transmitted) and at the accepted service `0x22` (no
violation). -/
theorem C4_witness :
    ((send_request fresh_manager null_transport 0x36 [] true).transmitted = [] ∧
     (send_request fresh_manager null_transport 0x36 [] true).safety.violations
       = [service_violation 0x36 0]) ∧
    (send_request fresh_manager null_transport 0x22 [0xF1, 0x90] true).safety.violations = [] := by
  have hb := (C4_rejection_atomic_exclusive fresh_manager null_transport 0x36 []).1 (by decide)
  have ha := (C4_rejection_atomic_exclusive fresh_manager null_transport 0x22 [0xF1, 0x90]).2
    (by decide)
  exact ⟨⟨hb.1, hb.2.2⟩, ha⟩

/-- Claim C5: for every byte buffer of length 0 through 4095, ISO-TP
segmentation (`IsoTpHandler.send_receive`, transmit side, with the
cooperative peer's Continue-To-Send flow control) followed by reassembly
(`IsoTpHandler._receive_isotp`) yields exactly the original buffer. -/
theorem C5_isotp_roundtrip (payload : List Nat) (hlen : payload.length ≤ 4095) :
    (isotp_send payload (some continue_fc)).bind receive_isotp = some payload := by
  by_cases h7 : payload.length ≤ 7
  · have hsend : isotp_send payload (some continue_fc)
        = some [(payload.length :: payload) ++ List.replicate (7 - payload.length) 0] := by
      simp [isotp_send, h7]
    rw [hsend, Option.some_bind]
    have htype : payload.length / 16 % 16 * 16 = 0 := by omega
    have hmod : payload.length % 16 = payload.length := by omega
    simp only [receive_isotp, List.cons_append, htype, if_true, hmod,
      List.drop_succ_cons, List.drop_zero]
    rw [List.take_append_of_le_length (Nat.le_refl _), List.take_length]
  · have hfc : ¬((0x30 : Nat) / 16 % 16 * 16 ≠ 0x30) := by norm_num
    have hsend : isotp_send payload (some continue_fc)
        = some (((0x10 + payload.length / 256 % 16) ::
            (payload.length % 256) :: payload.take 6) :: send_cf_frames payload 1 6) := by
      simp only [isotp_send, h7, if_false, continue_fc]
      rw [if_neg hfc]
    rw [hsend, Option.some_bind]
    have hq : payload.length / 256 ≤ 15 := by omega
    have htype0 : ¬((0x10 + payload.length / 256 % 16) / 16 % 16 * 16 = 0x00) := by omega
    have htype1 : (0x10 + payload.length / 256 % 16) / 16 % 16 * 16 = 0x10 := by omega
    have hlen2 : (0x10 + payload.length / 256 % 16) % 16 * 256 + payload.length % 256
        = payload.length := by omega
    simp only [receive_isotp, htype0, if_false, htype1, if_true, hlen2,
      List.drop_succ_cons, List.drop_zero, List.take_take, Nat.min_self]
    norm_num
    exact receive_cf_loop_round payload (payload.length - 6) 6 1 rfl (by omega) (by norm_num)

/-- Claim C5, witness: the round trip evaluated on the concrete 10-byte
buffer `[0, 1, ..., 9]`, which needs a First Frame and one Consecutive
Frame. -/
theorem C5_witness :
    (List.range 10).length ≤ 4095 ∧
    (isotp_send (List.range 10) (some continue_fc)).bind receive_isotp
      = some (List.range 10) := by
  exact ⟨by decide, C5_isotp_roundtrip (List.range 10) (by decide)⟩

/-- Claim C6: the response `[0x50, 0x01]` to the request `[0x10, 0x01]`
classifies positive with data `[0x01]`; the response `[0x7F, 0x10, 0x22]`
classifies negative with the resolved reason name "conditions not correct"
(rendered by the code as the title-cased "Conditions Not Correct"). -/
theorem C6_response_classification :
    (parsed_ok (parse_response 0x10 [0x10, 0x01] [0x50, 0x01])).map
        (fun r => (r.positive, r.data)) = some (true, [0x01]) ∧
    (parsed_ok (parse_response 0x10 [0x10, 0x01] [0x7F, 0x10, 0x22])).map
        (fun r => (r.positive, r.error_message)) = some (false, some "Conditions Not Correct") ∧
    (get_error_message 0x22).data.map Char.toLower = "conditions not correct".data := by
  decide

/-- Claim C7, evaluation at the failing input: against a target whose
positive `ReadDataByIdentifier 0xF190` response carries a 17-character
printable-ASCII VIN (the read itself succeeds and the spec-described
decoding yields the VIN), `read_vin` nevertheless returns `none`: its body
reads `response.is_positive`, an attribute the `UDSResponse` dataclass does
not define, so every call takes the `except Exception` path. -/
theorem C7_read_vin_returns_none :
    result_code (read_data_by_id fresh_manager vin_transport [0xF190]).result = none ∧
    read_vin_spec fresh_manager vin_transport = some "WBSWD93537P123456" ∧
    read_vin fresh_manager vin_transport = none := by
  decide

/-- Claim C8, counterexample: with the scanner state already `SCANNING`, a
call to `scan_all` is not rejected — it runs a full new iteration over the
requested module (one module scanned, a progress event fired) and
completes. -/
theorem C8_counterexample :
    scanning_state.state = ScanState.SCANNING ∧
    (scan_all scanning_state fresh_manager dead_env [sample_module]).result.modules.length = 1 ∧
    (scan_all scanning_state fresh_manager dead_env [sample_module]).progress_events
      = [(0, 1, "Digital Motor Electronics")] ∧
    (scan_all scanning_state fresh_manager dead_env [sample_module]).scanner.state
      = ScanState.COMPLETE := by
  decide

/-- Claim C8, amended: `scan_all` never consults the prior scanner state —
two calls from any two prior states behave identically, and every call
(including one made while the state is `SCANNING`) iterates over all the
requested modules; the one-at-a-time guard must be supplied by the
embedding application. -/
theorem C8_scan_never_rejected (s1 s2 : ScannerState) (safety : SafetyManager)
    (env : ScanEnv) (modules : List ModuleDefinition) :
    scan_all s1 safety env modules = scan_all s2 safety env modules ∧
    (scan_all s1 safety env modules).result.modules.length = modules.length ∧
    (scan_all s1 safety env modules).result.aborted = false ∧
    (scan_all s1 safety env modules).scanner.state = ScanState.COMPLETE := by
  have hloop := scan_loop_no_abort env modules.length modules 0 safety
    { modules := [], total_modules := modules.length, responding_modules := 0,
      modules_with_faults := 0, total_faults := 0, aborted := false } []
  refine ⟨rfl, ?_, ?_, ?_⟩
  · simpa [scan_all] using hloop.1
  · simpa [scan_all] using hloop.2.1
  · simp [scan_all, hloop.2.1]

/-- Claim C9: scanning three modules where the second never responds (and
the first and third answer session control) yields `total_modules = 3`,
`responding_modules = 2`, the second module marked not-responding with a
non-empty error message, the other two with none, and the scan runs to
completion over all three modules with `aborted` false. -/
theorem C9_one_absent_module (s : ScannerState) (safety : SafetyManager) (env : ScanEnv)
    (m1 m2 m3 : ModuleDefinition)
    (h1 : env m1.address = responsive_transport)
    (h2 : env m2.address = null_transport)
    (h3 : env m3.address = responsive_transport) :
    (scan_all s safety env [m1, m2, m3]).result.total_modules = 3 ∧
    (scan_all s safety env [m1, m2, m3]).result.responding_modules = 2 ∧
    (scan_all s safety env [m1, m2, m3]).result.modules.map ModuleScanResult.responding
      = [true, false, true] ∧
    (scan_all s safety env [m1, m2, m3]).result.modules.map ModuleScanResult.error_message
      = [none, some "UDSError[0xFD]: No response (timeout)", none] ∧
    (scan_all s safety env [m1, m2, m3]).result.aborted = false ∧
    (scan_all s safety env [m1, m2, m3]).scanner.state = ScanState.COMPLETE := by
  simp [scan_all, scan_loop, scan_module_session_ok, scan_module_no_response, h1, h2, h3]

/-- Claim C9, witness: the theorem at a concrete bus where the modules at
addresses `0x12` and `0x56` answer and the one at `0x18` does not. -/
theorem C9_witness :
    (scan_all scanning_state fresh_manager c9_env [c9_m1, c9_m2, c9_m3]).result.total_modules
      = 3 ∧
    (scan_all scanning_state fresh_manager c9_env [c9_m1, c9_m2, c9_m3]).result.responding_modules
      = 2 ∧
    (scan_all scanning_state fresh_manager c9_env [c9_m1, c9_m2, c9_m3]).result.aborted
      = false := by
  have hc := C9_one_absent_module scanning_state fresh_manager c9_env c9_m1 c9_m2 c9_m3 rfl rfl rfl
  exact ⟨hc.1, hc.2.1, hc.2.2.2.2.1⟩

/-- Claim C10: a registered hook that raises does not undo enforcement.
For any manager holding a raising hook and any blocked service id: the
check still returns false, the violation remains appended to the log,
every registered hook is still invoked during the rejection (in
registration order), and the raising hook's own invocation appears in the
call trace. -/
theorem C10_hook_exception_no_undo (mgr : SafetyManager) (sid : Nat) (h : Hook)
    (hmem : h ∈ mgr.hooks) (hraises : h.raises = true) (hblocked : sid ∈ BLOCKED_SERVICES) :
    (check_service mgr sid 0).allowed = false ∧
    (check_service mgr sid 0).mgr.violations = mgr.violations ++ [service_violation sid 0] ∧
    (check_service mgr sid 0).hook_calls.map HookCall.hook_id = mgr.hooks.map Hook.id ∧
    ({ hook_id := h.id, raised := true } : HookCall) ∈ (check_service mgr sid 0).hook_calls := by
  rw [check_service_blocked mgr sid 0 hblocked]
  refine ⟨rfl, rfl, notify_hooks_all _ _, ?_⟩
  have := notify_hooks_mem mgr.hooks (service_violation sid 0) h hmem
  rw [hraises] at this
  exact this

/-- Claim C10, witness: the theorem on a manager with two hooks, the first
raising, at the blocked service `0x27`. -/
theorem C10_witness :
    (check_service hooked_manager 0x27 0).allowed = false ∧
    (check_service hooked_manager 0x27 0).hook_calls.map HookCall.hook_id = [1, 2] ∧
    ({ hook_id := 1, raised := true } : HookCall) ∈ (check_service hooked_manager 0x27 0).hook_calls := by
  have hc := C10_hook_exception_no_undo hooked_manager 0x27 { id := 1, raises := true }
    (by decide) rfl (by decide)
  exact ⟨hc.1, hc.2.2.1, hc.2.2.2⟩

end E92Pulse
